import Mathlib

/-!
Shallow embedding of `src/app.py` (Streamlit text analyzer / rephraser).

The app's logic consists of three pieces:
  * credential resolution in the sidebar (environment variable, then the
    secrets store, then a masked text input);
  * `analyze_toxicity`, which posts text to the Perspective API and turns
    the returned score into a result dict;
  * `rephrase_text_api`, which posts a prompt to the Hugging Face
    inference endpoint and extracts generated text from the JSON response.

Network effects are modelled by an explicit `HttpOutcome` value describing
what the combination of `requests.post` / `raise_for_status` / `.json()`
produced: a parsed JSON body on success, a timeout, a
`requests.exceptions.RequestException` carrying the optional status code of
its attached response, or any other exception (e.g. a JSON decode error)
carrying its message. JSON numbers are embedded as rationals; the Python
float literal `0.6` is the exact rational 3/5 under this embedding.
-/

/-- A parsed JSON value as produced by `response.json()`. -/
inductive JsonVal where
  | jnull
  | jbool (b : Bool)
  | jnum (q : ℚ)
  | jstr (s : String)
  | jarr (xs : List JsonVal)
  | jobj (fields : List (String × JsonVal))

/-- Dictionary lookup. Python's `json` module keeps the LAST occurrence of a
duplicated key, so the lookup prefers later fields. -/
def lookupField : List (String × JsonVal) → String → Option JsonVal
  | [], _ => none
  | (k, v) :: rest, key =>
      match lookupField rest key with
      | some w => some w
      | none => if k = key then some v else none

/-- Python subscription `v[key]` with a string key: succeeds on a dict whose
keys include `key`, raises `KeyError` when the key is missing, and raises
`TypeError` on every non-dict value. -/
def getItem (v : JsonVal) (key : String) : Except String JsonVal :=
  match v with
  | .jobj fields =>
      match lookupField fields key with
      | some w => .ok w
      | none => .error ("KeyError: " ++ key)
  | _ => .error ("TypeError: value is not subscriptable with key " ++ key)

/-- Character-list prefix test used to model Python substring membership. -/
def matchesAt : List Char → List Char → Bool
  | [], _ => true
  | _ :: _, [] => false
  | a :: as, b :: bs => a = b && matchesAt as bs

/-- Whether `n` occurs as a contiguous sublist of `h`. -/
def subList (n h : List Char) : Bool :=
  match h with
  | [] => matchesAt n []
  | _ :: t => matchesAt n h || subList n t

/-- Python `key in v` for a string `key`: key membership on dicts, element
equality on lists (a string only equals a string), substring test on
strings, and `TypeError` on non-iterable values. -/
def pyContains (key : String) : JsonVal → Except String Bool
  | .jobj fields => .ok (fields.any fun kv => kv.1 = key)
  | .jarr xs =>
      .ok (xs.any fun v =>
        match v with
        | .jstr t => t = key
        | _ => false)
  | .jstr s => .ok (subList key.data s.data)
  | _ => .error "TypeError: argument of type is not iterable"

/-- Rendering of a JSON number under `str`. Python would print a decimal
float; the exact float formatting is outside this embedding, which prints
the rational. The claims never inspect stringified numbers. -/
def numRepr (q : ℚ) : String :=
  if q.den = 1 then toString q.num
  else toString q.num ++ "/" ++ toString q.den

mutual

/-- Python `repr` of a parsed JSON value (used for elements of containers). -/
def pyRepr : JsonVal → String
  | .jnull => "None"
  | .jbool true => "True"
  | .jbool false => "False"
  | .jnum q => numRepr q
  | .jstr s => "\x27" ++ s ++ "\x27"
  | .jarr xs => "[" ++ pyReprList xs ++ "]"
  | .jobj fields => "\x7b" ++ pyReprFields fields ++ "\x7d"

/-- Comma-separated `repr`s of list elements. -/
def pyReprList : List JsonVal → String
  | [] => ""
  | [x] => pyRepr x
  | x :: xs => pyRepr x ++ ", " ++ pyReprList xs

/-- Comma-separated `repr`s of dict entries. -/
def pyReprFields : List (String × JsonVal) → String
  | [] => ""
  | [kv] => "\x27" ++ kv.1 ++ "\x27: " ++ pyRepr kv.2
  | kv :: rest => "\x27" ++ kv.1 ++ "\x27: " ++ pyRepr kv.2 ++ ", " ++ pyReprFields rest

end

/-- Python `str` of a parsed JSON value: a string renders as itself, every
other value as its `repr`. -/
def pyStr : JsonVal → String
  | .jstr s => s
  | v => pyRepr v

/-- ASCII whitespace stripped by Python `str.strip()` (the full Unicode
whitespace set is not modelled; no claim depends on it). -/
def isPySpace (c : Char) : Bool :=
  c = ' ' || c = '\t' || c = '\n' || c = '\r' || c = '\x0b' || c = '\x0c'

/-- Drop leading characters satisfying `p`. -/
def dropLeading (p : Char → Bool) : List Char → List Char
  | [] => []
  | c :: cs => if p c then dropLeading p cs else c :: cs

/-- Executable model of Python `str.strip()`: whitespace removed from both
ends. -/
def pyStrip (s : String) : String :=
  ⟨((dropLeading isPySpace ((dropLeading isPySpace s.data).reverse)).reverse)⟩

/-- What the `requests.post` / `raise_for_status` / `response.json()`
sequence produced, seen from inside the `try` block. -/
inductive HttpOutcome where
  | ok (body : JsonVal)
  | timeout
  | requestError (status : Option Nat) (msg : String)
  | otherExn (msg : String)

/-- The result dict built by `analyze_toxicity`. Each field is `none` when
the corresponding key is absent from the dict (or explicitly `None`). -/
structure ModerationResult where
  raw_score : Option ℚ
  toxicity_score : Option ℚ
  is_toxic : Option Bool
  error : Option String
deriving DecidableEq, Repr

/-- The error-shaped dict `{"is_toxic": None, "toxicity_score": None,
"error": msg}`. -/
def errResult (msg : String) : ModerationResult :=
  { raw_score := none, toxicity_score := none, is_toxic := none,
    error := some msg }

/-- The chained subscription
`response_data['attributeScores']['TOXICITY']['summaryScore']['value']`,
followed by use of the value as a number in `score * 100` and
`score > 0.6`. A Python bool coerces to 0 or 1 in arithmetic; any other
non-number raises a `TypeError` at the comparison. -/
def extractScore (body : JsonVal) : Except String ℚ := do
  let a ← getItem body "attributeScores"
  let t ← getItem a "TOXICITY"
  let s ← getItem t "summaryScore"
  let v ← getItem s "value"
  match v with
  | .jnum q => pure q
  | .jbool b => pure (if b then 1 else 0)
  | _ => .error "TypeError: comparison not supported between instances"

/-- Embedding of `analyze_toxicity(text, api_key)` from `src/app.py`
(lines 74-103). `text` only flows into the request body; `outcome` is what
the network interaction produced. -/
def analyze_toxicity (text api_key : String) (outcome : HttpOutcome) :
    ModerationResult :=
  if api_key = "" then errResult "API Key missing"
  else
    match outcome with
    | .ok body =>
        match extractScore body with
        | .ok score =>
            { raw_score := some score,
              toxicity_score := some (score * 100),
              is_toxic := some (decide (score > (0.6 : ℚ))),
              error := none }
        | .error e => errResult ("Processing Error: " ++ e)
    | .timeout => errResult "API Request Timed Out"
    | .requestError status msg =>
        errResult
          (if status = some 400 then "API Error (400): Bad Request (Check Key?)"
           else if status = some 403 then
             "API Error (403): Forbidden (Check API Enabled/Perms?)"
           else "API Request Error: " ++ msg)
    | .otherExn msg => errResult ("Processing Error: " ++ msg)

/-- The parsing block of `rephrase_text_api` (lines 134-141): errors are
the Python exceptions the block can raise, which the surrounding
`except Exception` clause turns into strings. `pyStrip` models
`str.strip()`; calling `.strip()` on a non-string raises
`AttributeError`. -/
def parseRephraseResponse (result : JsonVal) : Except String String :=
  match result with
  | .jarr (x :: _) =>
      match pyContains "generated_text" x with
      | .error e => .error e
      | .ok true =>
          match getItem x "generated_text" with
          | .ok (.jstr s) => .ok (pyStrip s)
          | .ok _ => .error "AttributeError: object has no attribute strip"
          | .error e => .error e
      | .ok false => .ok (pyStrip (pyStr x))
  | _ => .ok (pyStrip (pyStr result))

/-- Embedding of `rephrase_text_api(text, hf_token)` from `src/app.py`
(lines 106-151). `authenticated_hf` is the module-level flag set by the
login attempt; `text` only flows into the prompt. -/
def rephrase_text_api (text hf_token : String) (authenticated_hf : Bool)
    (outcome : HttpOutcome) : String :=
  if hf_token = "" ∨ authenticated_hf = false then
    "Rephrasing not available (authentication missing)."
  else
    match outcome with
    | .ok result =>
        match parseRephraseResponse result with
        | .ok s => s
        | .error e => "Error during rephrasing: " ++ e
    | .timeout => "Error: Request to Hugging Face API timed out."
    | .requestError status msg =>
        if status = some 503 then
          "Model is currently loading. Please try again in a moment."
        else "API Error: " ++ msg
    | .otherExn msg => "Error during rephrasing: " ++ msg

/-- Embedding of the sidebar credential resolution (lines 25-47): take the
environment variable; if it is empty, take the secrets-store value; if that
is also empty, take the masked text input. The same code shape is used for
both the Hugging Face token and the Perspective API key. -/
def resolveCredential (envVal secretsVal inputVal : String) : String :=
  if envVal = "" then
    if secretsVal = "" then inputVal else secretsVal
  else envVal

/-! Helper definitions and lemmas shared by several claims. -/

/-- A Perspective API response body carrying the score `q` at the nested
path the code reads. -/
def scoreBody (q : ℚ) : JsonVal :=
  .jobj [("attributeScores", .jobj [("TOXICITY", .jobj
    [("summaryScore", .jobj [("value", .jnum q)])])])]

theorem extractScore_scoreBody (q : ℚ) : extractScore (scoreBody q) = .ok q := rfl

theorem lookupField_some_any {fields : List (String × JsonVal)} {key : String}
    {v : JsonVal} (h : lookupField fields key = some v) :
    (fields.any fun kv => kv.1 = key) = true := by
  induction fields generalizing v with
  | nil => simp [lookupField] at h
  | cons kv rest ih =>
      rw [List.any_cons]
      rw [lookupField] at h
      cases hrest : lookupField rest key with
      | some w => simp [ih hrest]
      | none =>
          rw [hrest] at h
          by_cases hk : kv.1 = key
          · simp [hk]
          · simp [hk] at h

theorem lookupField_none_any {fields : List (String × JsonVal)} {key : String}
    (h : lookupField fields key = none) :
    (fields.any fun kv => kv.1 = key) = false := by
  induction fields with
  | nil => simp
  | cons kv rest ih =>
      rw [lookupField] at h
      cases hrest : lookupField rest key with
      | some w => rw [hrest] at h; exact absurd h (by simp)
      | none =>
          rw [hrest] at h
          by_cases hk : kv.1 = key
          · rw [if_pos hk] at h; exact absurd h (by simp)
          · simp [hk, ih hrest]

/-! The claims. -/

/-- Claim C1: for every score value in [0,1] returned by the moderation
endpoint, the `is_toxic` boolean produced by `analyze_toxicity` equals
`score > 0.6`: strictly greater than 0.6 is toxic, 0.6 or below is
non-toxic. -/
theorem analyze_toxicity_threshold (text api_key : String) (body : JsonVal)
    (score : ℚ) (hk : api_key ≠ "") (hs : extractScore body = .ok score)
    (h0 : 0 ≤ score) (h1 : score ≤ 1) :
    (analyze_toxicity text api_key (.ok body)).is_toxic
      = some (decide (score > (0.6 : ℚ))) := by
  simp [analyze_toxicity, hk, hs]

/-- Witness for C1: a concrete body with score 7/10 yields `is_toxic = true`. -/
theorem analyze_toxicity_threshold_witness :
    (analyze_toxicity "you stink" "k" (.ok (scoreBody (7/10)))).is_toxic
      = some true := by
  have h := analyze_toxicity_threshold "you stink" "k" (scoreBody (7/10))
    (7/10) (by decide) (extractScore_scoreBody (7/10)) (by norm_num) (by norm_num)
  rw [h]
  norm_num

/-- Claim C2: an empty moderation API key yields the error dict
`is_toxic = None`, `toxicity_score = None`, `error = "API Key missing"`,
independently of any network outcome (no network call is performed). -/
theorem analyze_toxicity_missing_key (text : String) (outcome : HttpOutcome) :
    analyze_toxicity text "" outcome
      = { raw_score := none, toxicity_score := none, is_toxic := none,
          error := some "API Key missing" } := rfl

/-- Claim C3: a timeout on either outbound HTTP call is turned into a
value: `analyze_toxicity` returns a dict whose error field is
"API Request Timed Out", and `rephrase_text_api` returns the fixed
timed-out string. -/
theorem timeout_returns_value (text api_key hf_token : String)
    (hk : api_key ≠ "") (ht : hf_token ≠ "") :
    analyze_toxicity text api_key .timeout = errResult "API Request Timed Out"
    ∧ rephrase_text_api text hf_token true .timeout
        = "Error: Request to Hugging Face API timed out." := by
  constructor
  · simp [analyze_toxicity, hk]
  · simp [rephrase_text_api, ht]

/-- Witness for C3 at concrete inputs. -/
theorem timeout_returns_value_witness :
    analyze_toxicity "hi" "k" .timeout = errResult "API Request Timed Out"
    ∧ rephrase_text_api "hi" "tok" true .timeout
        = "Error: Request to Hugging Face API timed out." :=
  timeout_returns_value "hi" "k" "tok" (by decide) (by decide)

/-- Claim C4: a 503 status from the inference endpoint yields the fixed
model-is-loading message rather than the generic API error string. -/
theorem rephrase_503_model_loading (text hf_token msg : String)
    (ht : hf_token ≠ "") :
    rephrase_text_api text hf_token true (.requestError (some 503) msg)
      = "Model is currently loading. Please try again in a moment." := by
  simp [rephrase_text_api, ht]

/-- Witness for C4 at concrete inputs. -/
theorem rephrase_503_model_loading_witness :
    rephrase_text_api "hi" "tok" true
        (.requestError (some 503) "503 Server Error")
      = "Model is currently loading. Please try again in a moment." :=
  rephrase_503_model_loading "hi" "tok" "503 Server Error" (by decide)

/-- Claim C5: on a successful response that is a non-empty list, a
`generated_text` field (with a string value) in the first element is
returned stripped; a first element without the field falls back to
stringifying that element; a non-list or empty response is stringified
whole. -/
theorem rephrase_parse_shapes (text hf_token : String) (ht : hf_token ≠ "")
    (fields : List (String × JsonVal)) (rest : List JsonVal) (s : String) :
    (lookupField fields "generated_text" = some (.jstr s) →
       rephrase_text_api text hf_token true (.ok (.jarr (.jobj fields :: rest)))
         = pyStrip s)
    ∧ (lookupField fields "generated_text" = none →
       rephrase_text_api text hf_token true (.ok (.jarr (.jobj fields :: rest)))
         = pyStrip (pyStr (.jobj fields)))
    ∧ (∀ body : JsonVal, (∀ x xs, body ≠ .jarr (x :: xs)) →
       rephrase_text_api text hf_token true (.ok body) = pyStrip (pyStr body)) := by
  refine ⟨fun h => ?_, fun h => ?_, fun body h => ?_⟩
  · simp [rephrase_text_api, ht, parseRephraseResponse, pyContains,
      lookupField_some_any h, getItem, h]
  · simp [rephrase_text_api, ht, parseRephraseResponse, pyContains,
      lookupField_none_any h]
  · cases body with
    | jarr xs =>
        cases xs with
        | nil => simp [rephrase_text_api, ht, parseRephraseResponse]
        | cons x rest => exact absurd rfl (h x rest)
    | jnull => simp [rephrase_text_api, ht, parseRephraseResponse]
    | jbool b => simp [rephrase_text_api, ht, parseRephraseResponse]
    | jnum q => simp [rephrase_text_api, ht, parseRephraseResponse]
    | jstr s => simp [rephrase_text_api, ht, parseRephraseResponse]
    | jobj fs => simp [rephrase_text_api, ht, parseRephraseResponse]

/-- Witness for C5: a concrete response whose first element carries
`generated_text` is returned stripped. -/
theorem rephrase_parse_shapes_witness :
    rephrase_text_api "hi" "tok" true
        (.ok (.jarr [.jobj [("generated_text", .jstr "  hello  ")]]))
      = "hello" := by
  have h := (rephrase_parse_shapes "hi" "tok" (by decide)
    [("generated_text", .jstr "  hello  ")] [] "  hello  ").1 rfl
  rw [h]
  rfl

/-- The success branch of `analyze_toxicity`, as one equation. -/
theorem analyze_toxicity_ok (text api_key : String) (body : JsonVal)
    (score : ℚ) (hk : api_key ≠ "") (hs : extractScore body = .ok score) :
    analyze_toxicity text api_key (.ok body)
      = { raw_score := some score, toxicity_score := some (score * 100),
          is_toxic := some (decide (score > (0.6 : ℚ))), error := none } := by
  simp [analyze_toxicity, hk, hs]

/-- Counterexample for C6: the endpoint score 1/2 lies in [0,1], yet the
`toxicity_score` field the code stores is the percentage 50, which is
present and not in [0,1]. -/
theorem analyze_toxicity_score_unit_cex :
    (analyze_toxicity "hi" "k" (.ok (scoreBody (1/2)))).toxicity_score = some 50
    ∧ ¬ ((0 : ℚ) ≤ 50 ∧ (50 : ℚ) ≤ 1) := by
  have h := analyze_toxicity_ok "hi" "k" (scoreBody (1/2)) (1/2)
    (by decide) (extractScore_scoreBody _)
  constructor
  · rw [h]
    norm_num
  · norm_num

/-- Claim C6 (amended): when the moderation call succeeds with an endpoint
score in [0,1], the dict stores the raw score (in [0,1]) unchanged in
`raw_score` and the percentage `score * 100` (in [0,100]) in
`toxicity_score`. -/
theorem analyze_toxicity_score_percent_range (text api_key : String)
    (body : JsonVal) (score : ℚ) (hk : api_key ≠ "")
    (hs : extractScore body = .ok score) (h0 : 0 ≤ score) (h1 : score ≤ 1) :
    (analyze_toxicity text api_key (.ok body)).raw_score = some score
    ∧ (analyze_toxicity text api_key (.ok body)).toxicity_score
        = some (score * 100)
    ∧ 0 ≤ score * 100 ∧ score * 100 ≤ 100 := by
  refine ⟨by rw [analyze_toxicity_ok text api_key body score hk hs],
    by rw [analyze_toxicity_ok text api_key body score hk hs], ?_, ?_⟩
  · nlinarith
  · nlinarith

/-- Witness for C6 (amended) at the endpoint score 1/2. -/
theorem analyze_toxicity_score_percent_range_witness :
    (analyze_toxicity "hi" "k" (.ok (scoreBody (1/2)))).raw_score = some (1/2)
    ∧ (analyze_toxicity "hi" "k" (.ok (scoreBody (1/2)))).toxicity_score
        = some ((1:ℚ)/2 * 100)
    ∧ (0:ℚ) ≤ 1/2 * 100 ∧ ((1:ℚ)/2 * 100) ≤ 100 :=
  analyze_toxicity_score_percent_range "hi" "k" (scoreBody (1/2)) (1/2)
    (by decide) (extractScore_scoreBody _) (by norm_num) (by norm_num)

/-- Claim C7: each credential is resolved by trying the environment
variable, then the secrets store, then the masked text input, a later
source being used only when every earlier one was empty. -/
theorem resolveCredential_precedence (envVal secretsVal inputVal : String) :
    (envVal ≠ "" → resolveCredential envVal secretsVal inputVal = envVal)
    ∧ (envVal = "" → secretsVal ≠ "" →
        resolveCredential envVal secretsVal inputVal = secretsVal)
    ∧ (envVal = "" → secretsVal = "" →
        resolveCredential envVal secretsVal inputVal = inputVal) := by
  refine ⟨fun h => by simp [resolveCredential, h],
    fun h1 h2 => by simp [resolveCredential, h1, h2],
    fun h1 h2 => by simp [resolveCredential, h1, h2]⟩

/-- Witness for C7: each of the three precedence cases at concrete values. -/
theorem resolveCredential_precedence_witness :
    resolveCredential "E" "S" "T" = "E"
    ∧ resolveCredential "" "S" "T" = "S"
    ∧ resolveCredential "" "" "T" = "T" :=
  ⟨(resolveCredential_precedence "E" "S" "T").1 (by decide),
   (resolveCredential_precedence "" "S" "T").2.1 rfl (by decide),
   (resolveCredential_precedence "" "" "T").2.2 rfl rfl⟩

/-- Claim C8: every dict returned by `analyze_toxicity` is either a success
dict (raw_score, toxicity_score = raw_score * 100, a boolean is_toxic, no
error) or an error dict (is_toxic and toxicity_score absent, an error
string); `is_toxic` is absent exactly when an error occurred. -/
theorem analyze_toxicity_result_dichotomy (text api_key : String)
    (outcome : HttpOutcome) :
    ((∃ s b, analyze_toxicity text api_key outcome
        = { raw_score := some s, toxicity_score := some (s * 100),
            is_toxic := some b, error := none })
     ∨ (∃ e, analyze_toxicity text api_key outcome = errResult e))
    ∧ ((analyze_toxicity text api_key outcome).is_toxic = none
        ↔ (analyze_toxicity text api_key outcome).error ≠ none) := by
  constructor
  · unfold analyze_toxicity
    split
    · exact Or.inr ⟨_, rfl⟩
    · split
      · split
        · exact Or.inl ⟨_, _, rfl⟩
        · exact Or.inr ⟨_, rfl⟩
      · exact Or.inr ⟨_, rfl⟩
      · exact Or.inr ⟨_, rfl⟩
      · exact Or.inr ⟨_, rfl⟩
  · unfold analyze_toxicity
    split
    · simp [errResult]
    · split
      · split
        · simp
        · simp [errResult]
      · simp [errResult]
      · simp [errResult]
      · simp [errResult]

/-- Claim C9: `rephrase_text_api` catches every exception: an unexpected
exception from the request or from response parsing is mapped to the
string "Error during rephrasing: " followed by the exception text, and
every outcome whatsoever yields some string (the function never raises). -/
theorem rephrase_catches_exceptions (text hf_token msg e : String)
    (body : JsonVal) (ht : hf_token ≠ "") :
    rephrase_text_api text hf_token true (.otherExn msg)
      = "Error during rephrasing: " ++ msg
    ∧ (parseRephraseResponse body = .error e →
        rephrase_text_api text hf_token true (.ok body)
          = "Error during rephrasing: " ++ e)
    ∧ (∀ outcome : HttpOutcome, ∃ s : String,
        rephrase_text_api text hf_token true outcome = s) := by
  refine ⟨by simp [rephrase_text_api, ht],
    fun hp => by simp [rephrase_text_api, ht, hp],
    fun outcome => ⟨_, rfl⟩⟩

/-- Witness for C9: a concrete unexpected exception is mapped to the
catch-all string. -/
theorem rephrase_catches_exceptions_witness :
    rephrase_text_api "hi" "tok" true (.otherExn "boom")
      = "Error during rephrasing: boom" :=
  (rephrase_catches_exceptions "hi" "tok" "boom" "x" .jnull (by decide)).1

/-- Claim C10: an empty Hugging Face token or a failed authentication makes
`rephrase_text_api` return the fixed authentication-missing string,
independently of any network outcome (no network call is performed). -/
theorem rephrase_auth_missing (text hf_token : String)
    (authenticated_hf : Bool) (outcome : HttpOutcome)
    (h : hf_token = "" ∨ authenticated_hf = false) :
    rephrase_text_api text hf_token authenticated_hf outcome
      = "Rephrasing not available (authentication missing)." := by
  unfold rephrase_text_api
  rw [if_pos h]

/-- Witness for C10: an empty token with a pending timeout outcome. -/
theorem rephrase_auth_missing_witness :
    rephrase_text_api "hi" "" true .timeout
      = "Rephrasing not available (authentication missing)." :=
  rephrase_auth_missing "hi" "" true .timeout (Or.inl rfl)
